import Mathlib

/-!
Verification development for the suspicious-activity rule engine and risk
scorer (`rules/suspicious_rules.py`): a shallow embedding of the Case Rule
Evaluator (`evaluate_rules` and its helpers) and of the Bulk Risk Scorer
(`evaluate_risk_model`), together with theorems about them.

Modelling conventions:
- Python numbers (amounts, totals) are modelled as rationals (`ℚ`);
  the comparisons and sums in the source are exact at these magnitudes.
- A case payload's optional `narrative` is `Option String`;
  `data.get("narrative", "")` becomes `Option.getD "" `.
- `datetime.strptime(s, "%m/%d/%Y")` is modelled by `parseDateMDY`,
  following CPython's `_strptime` regexes: month and day are 1-2 digit
  fields with values 1..12 / 1..31, the year exactly 4 digits, separated
  by literal slashes with no surrounding text, and the resulting
  (year, month, day) must be a real calendar date with year ≥ 1.
- The Bulk Risk Scorer's DataFrame is modelled by `RiskTable`: a list of
  rows carrying a raw `amount` cell (`Option ℚ`, `none` = missing or not
  coercible to a number), a `country` cell, and a `transaction_date`
  cell (`DateCell`: still raw text, or an already parsed pandas
  datetime / NaT), plus flags telling whether the table has a `country`
  column and a `transaction_date` column. The two in-place column
  assignments `df['amount'] = pd.to_numeric(df['amount'], ...)` and
  (when the column exists) `df['transaction_date'] =
  pd.to_datetime(df['transaction_date'], errors='coerce')` are modelled
  by returning the mutated table alongside the result.
-/

namespace SAR

/-- Characters of a string lowercased (model of Python `str.lower()` on the
ASCII range, which is all the rule engine's vocabulary uses). -/
def lowerChars (s : String) : List Char :=
  s.toList.map Char.toLower

/-- `containsSub text word` models Python's substring test `word in text`
on already-normalised character lists. -/
def containsSub (text : List Char) (word : List Char) : Bool :=
  decide (word <:+: text)

/-- `PROHIBITED_WORDS` from `suspicious_rules.py`. -/
def PROHIBITED_WORDS : List String :=
  ["guilty", "criminal", "definitely", "certainly", "obviously"]

/-- `contains_prohibited_language(text)`: some prohibited word occurs in
`text`, case-insensitively (`word.lower() in text.lower()`). -/
def contains_prohibited_language (text : String) : Bool :=
  PROHIBITED_WORDS.any (fun word => containsSub (lowerChars text) (lowerChars word))

/-- The six 5W1H section tokens required by `has_5w1h`. -/
def required_sections : List String :=
  ["who", "what", "when", "where", "why", "how"]

/-- `has_5w1h(narrative)`: all six tokens occur in the lowercased
narrative (the source counts the found sections and compares to 6). -/
def has_5w1h (narrative : String) : Bool :=
  (required_sections.countP (fun sec => containsSub (lowerChars narrative) sec.toList)) == 6

/-- A transaction record as used by the Case Rule Evaluator: only the
`type` and `amount` fields are inspected. -/
structure Tx where
  type : String
  amount : ℚ
deriving DecidableEq

/-- `has_transaction_details(transactions)`: at least one transaction. -/
def has_transaction_details (transactions : List Tx) : Bool :=
  decide (1 ≤ transactions.length)

/-- `has_structuring(transactions)`: filter to cash transactions; if none,
false; otherwise true iff those with `9000 <= amount <= 9999` make up at
least 80% of the cash transactions. -/
def has_structuring (transactions : List Tx) : Bool :=
  let cash_tx := transactions.filter (fun t => t.type == "cash")
  if cash_tx.isEmpty then
    false
  else
    let range_tx := cash_tx.filter (fun t => decide (9000 ≤ t.amount ∧ t.amount ≤ 9999))
    decide (0 < cash_tx.length ∧ ((range_tx.length : ℚ) / (cash_tx.length : ℚ) ≥ 8/10))

/-- `calculate_confidence(score)`. -/
def calculate_confidence (score : Nat) : String × ℚ :=
  if score ≥ 13 then ("HIGH", 9/10)
  else if score ≥ 9 then ("MEDIUM", 3/4)
  else ("LOW", 1/2)

/-- Gregorian leap year, as `datetime` uses. -/
def isLeapYear (y : Nat) : Bool :=
  (y % 4 == 0 && y % 100 != 0) || y % 400 == 0

/-- Number of days in a month, as `datetime` validates. -/
def daysInMonth (y m : Nat) : Nat :=
  if m = 2 then (if isLeapYear y then 29 else 28)
  else if m = 4 ∨ m = 6 ∨ m = 9 ∨ m = 11 then 30
  else 31

/-- A parsed calendar date. -/
structure Date where
  year : Nat
  month : Nat
  day : Nat
deriving DecidableEq

/-- Split a character list at every `'/'` (Python-style split: `n`
slashes give `n+1` possibly empty parts). -/
def splitSlash : List Char → List (List Char)
  | [] => [[]]
  | c :: rest =>
    match splitSlash rest with
    | [] => [[c]]
    | h :: t => if c = '/' then [] :: h :: t else (c :: h) :: t

/-- Digit characters to their numeric value; `none` unless the list is
nonempty and all digits. -/
def digitsToNat (cs : List Char) : Option Nat :=
  if cs ≠ [] ∧ cs.all Char.isDigit then
    some (cs.foldl (fun n c => n * 10 + (c.toNat - 48)) 0)
  else
    none

/-- Model of `datetime.strptime(s, "%m/%d/%Y")`: `none` when parsing
raises `ValueError`. -/
def parseDateMDY (s : String) : Option Date :=
  match splitSlash s.toList with
  | [ms, ds, ys] =>
    match digitsToNat ms, digitsToNat ds, digitsToNat ys with
    | some m, some d, some y =>
      if ms.length ≤ 2 ∧ ds.length ≤ 2 ∧ ys.length = 4
          ∧ 1 ≤ m ∧ m ≤ 12 ∧ 1 ≤ d ∧ d ≤ 31 ∧ 1 ≤ y ∧ d ≤ daysInMonth y m
      then some ⟨y, m, d⟩ else none
    | _, _, _ => none
  | _ => none

/-- `datetime` comparison `a < b` (lexicographic on year, month, day). -/
def dateLt (a b : Date) : Bool :=
  decide (a.year < b.year ∨ (a.year = b.year ∧
    (a.month < b.month ∨ (a.month = b.month ∧ a.day < b.day))))

/-- The case payload consumed by `evaluate_rules`; only the fields the
function reads are modelled. `kyc` is represented by its `full_name`
entry (`none` = key absent). -/
structure CaseData where
  kyc_full_name : Option String
  accounts : List String
  transactions : List Tx
  activity_start : String
  activity_end : String
  total_amount : ℚ
  subject_identified : Bool
  narrative : Option String
deriving DecidableEq

/-- `data.get("narrative", "")`. -/
def narrativeOf (data : CaseData) : String :=
  data.narrative.getD ""

/-- The dictionary returned by `evaluate_rules`. -/
structure RuleResult where
  triggered_rules : List String
  errors : List String
  warnings : List String
  confidence_label : String
  confidence_score : ℚ
deriving DecidableEq

def trigger30 : String := "RULE 01: Filing Mandatory (30 days)"

def trigger60 : String := "RULE 02: Filing Mandatory (60 days)"

def triggerStructuring : String := "RULE 10: STRUCTURING detected (31 U.S.C. ยง 5324)"

/-- RULE 01 score contribution. -/
def score_rule1 (data : CaseData) : Nat :=
  if data.subject_identified = true ∧ data.total_amount ≥ 5000 then 1 else 0

/-- RULE 02 score contribution. -/
def score_rule2 (data : CaseData) : Nat :=
  if data.subject_identified = false ∧ data.total_amount ≥ 25000 then 1 else 0

/-- RULE 03 score contribution (`not kyc.get("full_name")` is falsy for a
missing key and for the empty string). -/
def score_rule3 (data : CaseData) : Nat :=
  if data.kyc_full_name.getD "" = "" then 0 else 1

/-- RULE 04 score contribution. -/
def score_rule4 (data : CaseData) : Nat :=
  if data.accounts = [] then 0 else 1

/-- RULE 05 score contribution: a point only when both dates parse and
the end is not before the start. -/
def score_rule5 (data : CaseData) : Nat :=
  match parseDateMDY data.activity_start, parseDateMDY data.activity_end with
  | some s, some e => if dateLt e s then 0 else 1
  | _, _ => 0

/-- RULE 05 error entries. -/
def rule5_errors (data : CaseData) : List String :=
  match parseDateMDY data.activity_start, parseDateMDY data.activity_end with
  | some s, some e => if dateLt e s then ["End date before start date"] else []
  | _, _ => ["Invalid or missing activity dates"]

/-- RULE 06 score contribution. -/
def score_rule6 (data : CaseData) : Nat :=
  if data.total_amount ≤ 0 then 0 else 1

/-- RULE 07 (structuring) score contribution. -/
def score_rule7 (data : CaseData) : Nat :=
  if has_structuring data.transactions then 2 else 0

/-- RULE 08 (5W1H) score contribution. -/
def score_rule8 (data : CaseData) : Nat :=
  if narrativeOf data ≠ "" then (if has_5w1h (narrativeOf data) then 2 else 0) else 0

/-- RULE 09 (narrative length) score contribution. -/
def score_rule9 (data : CaseData) : Nat :=
  if narrativeOf data ≠ "" ∧ 500 ≤ (narrativeOf data).length then 1 else 0

/-- RULE 11 (prohibited language) score contribution: a point whenever
the error branch is not taken, also when the narrative is absent. -/
def score_rule11 (data : CaseData) : Nat :=
  if narrativeOf data ≠ "" ∧ contains_prohibited_language (narrativeOf data) then 0 else 1

/-- RULE 12 (transaction details) score contribution. -/
def score_rule12 (data : CaseData) : Nat :=
  if has_transaction_details data.transactions then 1 else 0

/-- RULE 13 (investigation section) score contribution. -/
def score_rule13 (data : CaseData) : Nat :=
  if narrativeOf data ≠ "" ∧ containsSub (lowerChars (narrativeOf data)) "investigation".toList
  then 1 else 0

/-- RULE 14 (conclusion section) score contribution. -/
def score_rule14 (data : CaseData) : Nat :=
  if narrativeOf data ≠ "" ∧ containsSub (lowerChars (narrativeOf data)) "conclusion".toList
  then 1 else 0

/-- The accumulated score of `evaluate_rules` as the sum of the
per-rule contributions, in source order. -/
def evalScore (data : CaseData) : Nat :=
  score_rule1 data + score_rule2 data + score_rule3 data + score_rule4 data
    + score_rule5 data + score_rule6 data + score_rule7 data + score_rule8 data
    + score_rule9 data + score_rule11 data + score_rule12 data
    + score_rule13 data + score_rule14 data

/-- `evaluate_rules(data)`: the list appends happen in source order; the
score accumulates through `evalScore` and feeds `calculate_confidence`. -/
def evaluate_rules (data : CaseData) : RuleResult :=
  let narrative := narrativeOf data
  let triggered_rules :=
    (if data.subject_identified = true ∧ data.total_amount ≥ 5000 then [trigger30] else [])
    ++ (if data.subject_identified = false ∧ data.total_amount ≥ 25000 then [trigger60] else [])
    ++ (if has_structuring data.transactions then [triggerStructuring] else [])
  let errors :=
    (if data.kyc_full_name.getD "" = "" then ["Full name missing"] else [])
    ++ (if data.accounts = [] then ["No account information provided"] else [])
    ++ rule5_errors data
    ++ (if data.total_amount ≤ 0 then ["Invalid suspicious amount"] else [])
    ++ (if narrative ≠ "" ∧ contains_prohibited_language narrative
        then ["Prohibited language detected"] else [])
  let warnings :=
    (if narrative ≠ "" ∧ ¬ (has_5w1h narrative = true)
     then ["Narrative missing full 5W1H elements"] else [])
    ++ (if narrative ≠ "" ∧ ¬ (500 ≤ narrative.length)
        then ["Narrative below 500 characters"] else [])
    ++ (if ¬ (has_transaction_details data.transactions = true)
        then ["No transaction details provided"] else [])
    ++ (if ¬ (narrative ≠ "" ∧ containsSub (lowerChars narrative) "investigation".toList = true)
        then ["Investigation steps not documented"] else [])
    ++ (if ¬ (narrative ≠ "" ∧ containsSub (lowerChars narrative) "conclusion".toList = true)
        then ["Conclusion section missing"] else [])
  let conf := calculate_confidence (evalScore data)
  { triggered_rules := triggered_rules
    errors := errors
    warnings := warnings
    confidence_label := conf.1
    confidence_score := conf.2 }

/-- Split a character list at every `'-'` (Python-style split). -/
def splitDash : List Char → List (List Char)
  | [] => [[]]
  | c :: rest =>
    match splitDash rest with
    | [] => [[c]]
    | h :: t => if c = '-' then [] :: h :: t else (c :: h) :: t

/-- An ISO `YYYY-MM-DD` date, or `none`. Used to model which text cells
`pd.to_datetime(.., errors="coerce")` turns into a timestamp rather than
NaT. pandas accepts further formats; which texts parse is irrelevant to
every result of the scorer, which rewrites the column and never reads
it, so only the format the CSV import path delivers is modelled. -/
def parseDateISO (s : String) : Option Date :=
  match splitDash s.toList with
  | [ys, ms, ds] =>
    match digitsToNat ys, digitsToNat ms, digitsToNat ds with
    | some y, some m, some d =>
      if ys.length = 4 ∧ ms.length ≤ 2 ∧ ds.length ≤ 2
          ∧ 1 ≤ m ∧ m ≤ 12 ∧ 1 ≤ d ∧ d ≤ 31 ∧ 1 ≤ y ∧ d ≤ daysInMonth y m
      then some ⟨y, m, d⟩ else none
    | _, _, _ => none
  | _ => none

/-- One cell of the `transaction_date` column: raw text as a CSV import
delivers it, or an already parsed pandas datetime (`stamp (some d)` a
timestamp, `stamp none` NaT). -/
inductive DateCell
  | text : String → DateCell
  | stamp : Option Date → DateCell
deriving DecidableEq

/-- One cell of `pd.to_datetime(col, errors="coerce")`: text is replaced
by its parsed value (NaT when unparsable); a datetime or NaT cell is
left as it is. -/
def pdToDatetime : DateCell → DateCell
  | .text s => .stamp (parseDateISO s)
  | .stamp d => .stamp d

/-- A row of the Bulk Risk Scorer's transaction table. `rawAmount` is the
`amount` cell before coercion (`none` when `pd.to_numeric(..,
errors="coerce")` would yield `NaN`); `country` and `rawDate` are the
`country` and `transaction_date` cells, each meaningful only when the
table has that column. -/
structure RiskRow where
  rawAmount : Option ℚ
  country : String
  rawDate : DateCell
deriving DecidableEq

/-- The transaction table handed to `evaluate_risk_model`. -/
structure RiskTable where
  rows : List RiskRow
  hasCountry : Bool
  hasTransactionDate : Bool
deriving DecidableEq

/-- The dictionary returned by `evaluate_risk_model` (the two `metrics`
entries are flattened into fields). -/
structure RiskResult where
  score : Nat
  level : String
  total_volume : ℚ
  high_value_count : Nat
  cross_border_count : Nat
  triggered_rules : List String
deriving DecidableEq

/-- `pd.to_numeric(x, errors="coerce")` followed by `.fillna(0)` on one
cell: an uncoercible or missing amount becomes 0. -/
def coerceAmount (a : Option ℚ) : ℚ :=
  a.getD 0

/-- One row of the amount-column assignment: the `amount` cell replaced
by its coerced numeric value. -/
def coerceRow (r : RiskRow) : RiskRow :=
  { r with rawAmount := some (coerceAmount r.rawAmount) }

/-- The in-place column assignment
`df['amount'] = pd.to_numeric(df['amount'], errors='coerce').fillna(0)`:
every `amount` cell is replaced by its coerced numeric value. -/
def coerceRows (df : RiskTable) : RiskTable :=
  { df with rows := df.rows.map coerceRow }

/-- One row of the transaction_date-column assignment: the
`transaction_date` cell replaced by its parsed value. -/
def convertDateRow (r : RiskRow) : RiskRow :=
  { r with rawDate := pdToDatetime r.rawDate }

/-- The guarded in-place column assignment `if 'transaction_date' in
df.columns: df['transaction_date'] = pd.to_datetime(df['transaction_date'],
errors='coerce')`: when the column exists, every `transaction_date` cell
is replaced by its parsed value. -/
def convertDates (df : RiskTable) : RiskTable :=
  if df.hasTransactionDate then
    { df with rows := df.rows.map convertDateRow }
  else df

/-- The coerced `amount` column of a table. -/
def rowAmounts (df : RiskTable) : List ℚ :=
  df.rows.map (fun r => coerceAmount r.rawAmount)

/-- `df['amount'].sum()`. -/
def total_volume (df : RiskTable) : ℚ :=
  (rowAmounts df).sum

/-- `len(df[df['amount'] >= 9000])`. -/
def high_value_count (df : RiskTable) : Nat :=
  ((rowAmounts df).filter (fun a => decide (9000 ≤ a))).length

/-- `len(df[(df['amount'] > 9000) & (df['amount'] < 10000)])`. -/
def structuring_count (df : RiskTable) : Nat :=
  ((rowAmounts df).filter (fun a => decide (9000 < a ∧ a < 10000))).length

/-- `len(df[df['country'].str.upper() != 'US'])` when the `country`
column exists, else 0 (the check is skipped entirely). -/
def cross_border_count (df : RiskTable) : Nat :=
  if df.hasCountry then
    (df.rows.filter (fun r => decide (r.country.toList.map Char.toUpper ≠ ['U', 'S']))).length
  else 0

/-- The volume component of the base score: exclusive tiers, highest
matching tier only. -/
def volumeTier (v : ℚ) : Nat :=
  if 100000 < v then 30
  else if 20000 < v then 10
  else 0

/-- `base_score` before clamping. -/
def base_score (df : RiskTable) : Nat :=
  volumeTier (total_volume df) + high_value_count df * 5 + cross_border_count df * 10

/-- `risk_score = min(base_score, 100)`. -/
def risk_score (df : RiskTable) : Nat :=
  min (base_score df) 100

/-- The categorical risk level from the clamped score. -/
def risk_level (s : Nat) : String :=
  if 80 ≤ s then "Critical"
  else if 50 ≤ s then "High"
  else if 20 ≤ s then "Medium"
  else "Low"

/-- The triggered-rule strings, in source append order. -/
def risk_triggers (df : RiskTable) : List String :=
  (if 0 < high_value_count df
   then ["High Value Transactions Detected (Count: " ++ toString (high_value_count df) ++ ")"]
   else [])
  ++ (if 2 < structuring_count df
      then ["Potential Structuring Detected ($9000-$10000 range)"]
      else [])
  ++ (if df.hasCountry = true ∧ 0 < cross_border_count df
      then ["Cross-Border Activity Detected (" ++ toString (cross_border_count df) ++ " txns)"]
      else [])

/-- `evaluate_risk_model(df)`. The function first mutates its argument
in place — the amount column (`coerceRows`) and then, when present, the
transaction_date column (`convertDates`) — then computes everything from
the mutated table; the mutated table is returned as the second component
to make the side effects on the caller's object explicit. -/
def evaluate_risk_model (df0 : RiskTable) : RiskResult × RiskTable :=
  let df := convertDates (coerceRows df0)
  ({ score := risk_score df
     level := risk_level (risk_score df)
     total_volume := total_volume df
     high_value_count := high_value_count df
     cross_border_count := cross_border_count df
     triggered_rules := risk_triggers df }, df)

/-! ### Helper lemmas -/

theorem mem_ite_singleton {c : Prop} [Decidable c] {a b : String} :
    (a ∈ if c then [b] else ([] : List String)) ↔ c ∧ a = b := by
  by_cases h : c <;> simp [h]

/-- The triggered-rules list of `evaluate_rules`, spelled out. -/
theorem triggered_rules_eq (data : CaseData) :
    (evaluate_rules data).triggered_rules =
      (if data.subject_identified = true ∧ data.total_amount ≥ 5000 then [trigger30] else [])
      ++ (if data.subject_identified = false ∧ data.total_amount ≥ 25000 then [trigger60] else [])
      ++ (if has_structuring data.transactions then [triggerStructuring] else []) := rfl

/-- The errors list of `evaluate_rules`, spelled out. -/
theorem errors_eq (data : CaseData) :
    (evaluate_rules data).errors =
      (if data.kyc_full_name.getD "" = "" then ["Full name missing"] else [])
      ++ (if data.accounts = [] then ["No account information provided"] else [])
      ++ rule5_errors data
      ++ (if data.total_amount ≤ 0 then ["Invalid suspicious amount"] else [])
      ++ (if narrativeOf data ≠ "" ∧ contains_prohibited_language (narrativeOf data)
          then ["Prohibited language detected"] else []) := rfl

/-- The warnings list of `evaluate_rules`, spelled out. -/
theorem warnings_eq (data : CaseData) :
    (evaluate_rules data).warnings =
      (if narrativeOf data ≠ "" ∧ ¬ (has_5w1h (narrativeOf data) = true)
       then ["Narrative missing full 5W1H elements"] else [])
      ++ (if narrativeOf data ≠ "" ∧ ¬ (500 ≤ (narrativeOf data).length)
          then ["Narrative below 500 characters"] else [])
      ++ (if ¬ (has_transaction_details data.transactions = true)
          then ["No transaction details provided"] else [])
      ++ (if ¬ (narrativeOf data ≠ "" ∧
                containsSub (lowerChars (narrativeOf data)) "investigation".toList = true)
          then ["Investigation steps not documented"] else [])
      ++ (if ¬ (narrativeOf data ≠ "" ∧
                containsSub (lowerChars (narrativeOf data)) "conclusion".toList = true)
          then ["Conclusion section missing"] else []) := rfl

/-! ### Claim theorems -/

/-- C3: the confidence classification from the final accumulated score:
`s ≥ 13` gives HIGH with 0.9, `9 ≤ s ≤ 12` gives MEDIUM with 0.75,
`s ≤ 8` gives LOW with 0.5, and the boundaries 13, 12, 9, 8 land exactly
on HIGH, MEDIUM, MEDIUM, LOW. -/
theorem claim_C3_confidence_classification :
    (∀ s : Nat, 13 ≤ s → calculate_confidence s = ("HIGH", 9/10))
  ∧ (∀ s : Nat, 9 ≤ s → s ≤ 12 → calculate_confidence s = ("MEDIUM", 3/4))
  ∧ (∀ s : Nat, s ≤ 8 → calculate_confidence s = ("LOW", 1/2))
  ∧ calculate_confidence 13 = ("HIGH", 9/10)
  ∧ calculate_confidence 12 = ("MEDIUM", 3/4)
  ∧ calculate_confidence 9 = ("MEDIUM", 3/4)
  ∧ calculate_confidence 8 = ("LOW", 1/2) := by
  refine ⟨?_, ?_, ?_, rfl, rfl, rfl, rfl⟩
  · intro s hs
    simp [calculate_confidence, hs]
  · intro s h9 h12
    have h13 : ¬ (13 ≤ s) := by omega
    simp [calculate_confidence, h13, h9]
  · intro s h8
    have h13 : ¬ (13 ≤ s) := by omega
    have h9 : ¬ (9 ≤ s) := by omega
    simp [calculate_confidence, h13, h9]

/-- C3 witness: the classification evaluated through the theorem at the
concrete scores 20, 10 and 3. -/
theorem claim_C3_confidence_classification_witness :
    calculate_confidence 20 = ("HIGH", 9/10)
  ∧ calculate_confidence 10 = ("MEDIUM", 3/4)
  ∧ calculate_confidence 3 = ("LOW", 1/2) :=
  ⟨claim_C3_confidence_classification.1 20 (by decide),
   claim_C3_confidence_classification.2.1 10 (by decide) (by decide),
   claim_C3_confidence_classification.2.2.1 3 (by decide)⟩

/-- C1: the 30-day filing trigger appears in `triggered_rules` exactly
when the subject is identified and `total_amount ≥ 5000` (with rule 1
scoring a point), the 60-day trigger exactly when the subject is not
identified and `total_amount ≥ 25000` (with rule 2 scoring a point), and
the two triggers never appear together. -/
theorem claim_C1_filing_deadline_triggers (data : CaseData) :
    (trigger30 ∈ (evaluate_rules data).triggered_rules ↔
      data.subject_identified = true ∧ data.total_amount ≥ 5000)
  ∧ (trigger60 ∈ (evaluate_rules data).triggered_rules ↔
      data.subject_identified = false ∧ data.total_amount ≥ 25000)
  ∧ (data.subject_identified = true ∧ data.total_amount ≥ 5000 → score_rule1 data = 1)
  ∧ (data.subject_identified = false ∧ data.total_amount ≥ 25000 → score_rule2 data = 1)
  ∧ ¬ (trigger30 ∈ (evaluate_rules data).triggered_rules ∧
       trigger60 ∈ (evaluate_rules data).triggered_rules) := by
  have h30 : trigger30 ∈ (evaluate_rules data).triggered_rules ↔
      data.subject_identified = true ∧ data.total_amount ≥ 5000 := by
    rw [triggered_rules_eq]
    simp only [List.mem_append, mem_ite_singleton]
    constructor
    · rintro ((⟨h, _⟩ | ⟨_, h⟩) | ⟨_, h⟩)
      · exact h
      · exact absurd h (by decide)
      · exact absurd h (by decide)
    · intro h
      exact Or.inl (Or.inl ⟨h, trivial⟩)
  have h60 : trigger60 ∈ (evaluate_rules data).triggered_rules ↔
      data.subject_identified = false ∧ data.total_amount ≥ 25000 := by
    rw [triggered_rules_eq]
    simp only [List.mem_append, mem_ite_singleton]
    constructor
    · rintro ((⟨_, h⟩ | ⟨h, _⟩) | ⟨_, h⟩)
      · exact absurd h (by decide)
      · exact h
      · exact absurd h (by decide)
    · intro h
      exact Or.inl (Or.inr ⟨h, trivial⟩)
  refine ⟨h30, h60, ?_, ?_, ?_⟩
  · intro h
    unfold score_rule1
    rw [if_pos h]
  · intro h
    unfold score_rule2
    rw [if_pos h]
  · rintro ⟨m30, m60⟩
    exact Bool.noConfusion (((h30.mp m30).1.symm.trans (h60.mp m60).1))

/-- A sample case: subject identified, `total_amount = 6000`. -/
def case30 : CaseData :=
  { kyc_full_name := some "Jane Roe"
    accounts := ["ACC-1"]
    transactions := []
    activity_start := "01/01/2024"
    activity_end := "02/01/2024"
    total_amount := 6000
    subject_identified := true
    narrative := none }

/-- C1 witness: the theorem applied to `case30`. -/
theorem claim_C1_filing_deadline_triggers_witness :
    trigger30 ∈ (evaluate_rules case30).triggered_rules ∧ score_rule1 case30 = 1 :=
  ⟨(claim_C1_filing_deadline_triggers case30).1.mpr (by decide),
   (claim_C1_filing_deadline_triggers case30).2.2.1 (by decide)⟩

/-- The 80% ratio test over counts, cross-multiplied. -/
theorem structuring_ratio_iff (r c : Nat) (hc : 0 < c) :
    ((r : ℚ) / (c : ℚ) ≥ 8/10) ↔ 4 * c ≤ 5 * r := by
  have hc' : (0:ℚ) < (c:ℚ) := by exact_mod_cast hc
  rw [ge_iff_le, div_le_div_iff₀ (by norm_num : (0:ℚ) < 10) hc']
  rw [show (8:ℚ) * (c:ℚ) = ((8 * c : Nat) : ℚ) by push_cast; ring,
      show (r:ℚ) * 10 = ((r * 10 : Nat) : ℚ) by push_cast; ring,
      Nat.cast_le]
  omega

/-- `has_structuring` characterised without filtering or division: some
cash transaction exists and the cash transactions in `[9000, 9999]` are
at least 80% of all cash transactions. -/
theorem has_structuring_iff (txs : List Tx) :
    has_structuring txs = true ↔
      (∃ t ∈ txs, t.type = "cash") ∧
        4 * txs.countP (fun t => t.type == "cash") ≤
          5 * txs.countP (fun t =>
            (t.type == "cash") && decide (9000 ≤ t.amount ∧ t.amount ≤ 9999)) := by
  simp only [has_structuring]
  by_cases hempty : txs.filter (fun t => t.type == "cash") = []
  · rw [hempty]
    simp only [List.isEmpty_nil, if_true]
    constructor
    · intro h
      simp at h
    · rintro ⟨⟨t, ht, hty⟩, _⟩
      have hnot := List.filter_eq_nil_iff.mp hempty t ht
      simp [hty] at hnot
  · have hlen : 0 < (txs.filter (fun t => t.type == "cash")).length :=
      List.length_pos.mpr hempty
    have hne : ((txs.filter (fun t => t.type == "cash")).isEmpty) = false :=
      List.isEmpty_eq_false.mpr hempty
    rw [hne]
    simp only [Bool.false_eq_true, if_false, decide_eq_true_eq]
    have hcount_cash : (txs.filter (fun t => t.type == "cash")).length =
        txs.countP (fun t => t.type == "cash") :=
      (List.countP_eq_length_filter _ _).symm
    have hcount_range :
        ((txs.filter (fun t => t.type == "cash")).filter
          (fun t => decide (9000 ≤ t.amount ∧ t.amount ≤ 9999))).length =
        txs.countP (fun t =>
          (t.type == "cash") && decide (9000 ≤ t.amount ∧ t.amount ≤ 9999)) := by
      rw [← List.countP_eq_length_filter, List.countP_filter]
      exact List.countP_congr (fun t _ => by rw [Bool.and_comm])
    have hex : ∃ t ∈ txs, t.type = "cash" := by
      obtain ⟨t, ht⟩ := List.exists_mem_of_ne_nil _ hempty
      rw [List.mem_filter] at ht
      exact ⟨t, ht.1, by simpa using ht.2⟩
    rw [hcount_range, hcount_cash]
    rw [structuring_ratio_iff _ _ (hcount_cash ▸ hlen)]
    constructor
    · intro h
      exact ⟨hex, h.2⟩
    · intro h
      exact ⟨hcount_cash ▸ hlen, h.2⟩

/-- The spec's structuring example: four cash transactions inside the
structuring window. -/
def txsStruct : List Tx :=
  [⟨"cash", 9500⟩, ⟨"cash", 9600⟩, ⟨"cash", 9700⟩, ⟨"cash", 9800⟩]

/-- The spec's non-structuring variant: one amount replaced by 5000. -/
def txsNoStruct : List Tx :=
  [⟨"cash", 9500⟩, ⟨"cash", 9600⟩, ⟨"cash", 9700⟩, ⟨"cash", 5000⟩]

/-- C2: the structuring trigger is appended and rule 7 scores 2 exactly
when some cash transaction exists and the cash transactions with
`9000 ≤ amount ≤ 9999` are at least 80% of all cash transactions; the
spec's four-cash-transaction example triggers it and the variant with one
amount replaced by 5000 (ratio 3/4) does not. -/
theorem claim_C2_structuring (data : CaseData) :
    (triggerStructuring ∈ (evaluate_rules data).triggered_rules ↔
      (∃ t ∈ data.transactions, t.type = "cash") ∧
        4 * data.transactions.countP (fun t => t.type == "cash") ≤
          5 * data.transactions.countP (fun t =>
            (t.type == "cash") && decide (9000 ≤ t.amount ∧ t.amount ≤ 9999)))
  ∧ (triggerStructuring ∈ (evaluate_rules data).triggered_rules ↔ score_rule7 data = 2)
  ∧ (score_rule7 data = 2 ∨ score_rule7 data = 0)
  ∧ has_structuring txsStruct = true
  ∧ has_structuring txsNoStruct = false := by
  have hmem : triggerStructuring ∈ (evaluate_rules data).triggered_rules ↔
      has_structuring data.transactions = true := by
    rw [triggered_rules_eq]
    simp only [List.mem_append, mem_ite_singleton]
    constructor
    · rintro ((⟨_, h⟩ | ⟨_, h⟩) | ⟨h, _⟩)
      · exact absurd h (by decide)
      · exact absurd h (by decide)
      · exact h
    · intro h
      exact Or.inr ⟨h, trivial⟩
  have hpos : has_structuring txsStruct = true :=
    (has_structuring_iff txsStruct).mpr (by decide)
  have hneg : has_structuring txsNoStruct = false := by
    by_contra h
    have h' : has_structuring txsNoStruct = true := by
      revert h
      cases has_structuring txsNoStruct <;> simp
    have := (has_structuring_iff txsNoStruct).mp h'
    revert this
    decide
  refine ⟨hmem.trans (has_structuring_iff data.transactions), ?_, ?_, hpos, hneg⟩
  · rw [hmem]
    unfold score_rule7
    by_cases h : has_structuring data.transactions = true
    · rw [if_pos h]
      simp [h]
    · rw [if_neg h]
      simp [h]
  · unfold score_rule7
    by_cases h : has_structuring data.transactions = true
    · rw [if_pos h]
      exact Or.inl rfl
    · rw [if_neg h]
      exact Or.inr rfl

/-- A sample case carrying the structuring example transactions. -/
def caseStruct : CaseData :=
  { kyc_full_name := some "John Doe"
    accounts := ["ACC-2"]
    transactions := txsStruct
    activity_start := "01/01/2024"
    activity_end := "02/01/2024"
    total_amount := 38600
    subject_identified := true
    narrative := none }

/-- C2 witness: the theorem applied to `caseStruct` puts the structuring
trigger in the result and makes rule 7 score 2. -/
theorem claim_C2_structuring_witness :
    triggerStructuring ∈ (evaluate_rules caseStruct).triggered_rules
  ∧ score_rule7 caseStruct = 2 := by
  have h : triggerStructuring ∈ (evaluate_rules caseStruct).triggered_rules :=
    (claim_C2_structuring caseStruct).1.mpr (by decide)
  exact ⟨h, ((claim_C2_structuring caseStruct).2.1.mp h)⟩

/-- Every entry of `rule5_errors` is one of the two date error strings. -/
theorem rule5_errors_sub (data : CaseData) {x : String} (hx : x ∈ rule5_errors data) :
    x = "End date before start date" ∨ x = "Invalid or missing activity dates" := by
  rcases hs : parseDateMDY data.activity_start with _ | s <;>
    rcases he : parseDateMDY data.activity_end with _ | e
  · simp [rule5_errors, hs, he] at hx
    exact Or.inr hx
  · simp [rule5_errors, hs, he] at hx
    exact Or.inr hx
  · simp [rule5_errors, hs, he] at hx
    exact Or.inr hx
  · by_cases hlt : dateLt e s = true
    · simp [rule5_errors, hs, he, hlt] at hx
      exact Or.inl hx
    · simp [rule5_errors, hs, he, hlt] at hx

/-- C5: `evaluate_rules` is total (a Lean function); when either
activity date fails to parse as MM/DD/YYYY the error "Invalid or missing
activity dates" is recorded, when both parse but the end date precedes
the start date the error "End date before start date" is recorded, and
in either failure case rule 5 contributes no score point. -/
theorem claim_C5_date_validation (data : CaseData) :
    ((parseDateMDY data.activity_start = none ∨ parseDateMDY data.activity_end = none) →
      "Invalid or missing activity dates" ∈ (evaluate_rules data).errors
        ∧ score_rule5 data = 0)
  ∧ (∀ s e : Date, parseDateMDY data.activity_start = some s →
      parseDateMDY data.activity_end = some e → dateLt e s = true →
      "End date before start date" ∈ (evaluate_rules data).errors
        ∧ score_rule5 data = 0) := by
  constructor
  · intro h
    have hmem : "Invalid or missing activity dates" ∈ rule5_errors data
        ∧ score_rule5 data = 0 := by
      rcases hs : parseDateMDY data.activity_start with _ | s
        <;> rcases he : parseDateMDY data.activity_end with _ | e
        <;> simp [rule5_errors, score_rule5, hs, he] at h ⊢
    refine ⟨?_, hmem.2⟩
    rw [errors_eq]
    simp only [List.mem_append]
    exact Or.inl (Or.inl (Or.inr hmem.1))
  · intro s e hs he hlt
    constructor
    · rw [errors_eq]
      simp only [List.mem_append]
      refine Or.inl (Or.inl (Or.inr ?_))
      simp [rule5_errors, hs, he, hlt]
    · simp [score_rule5, hs, he, hlt]

/-- The spec's reversed-dates example. -/
def caseDates : CaseData :=
  { kyc_full_name := some "Jane Roe"
    accounts := ["ACC-1"]
    transactions := []
    activity_start := "12/31/2024"
    activity_end := "01/01/2024"
    total_amount := 6000
    subject_identified := true
    narrative := none }

/-- A case whose start date is not in MM/DD/YYYY format. -/
def caseBadDate : CaseData :=
  { kyc_full_name := some "Jane Roe"
    accounts := ["ACC-1"]
    transactions := []
    activity_start := "2024-01-01"
    activity_end := "01/31/2024"
    total_amount := 6000
    subject_identified := true
    narrative := none }

/-- C5 witness: the theorem applied to the reversed-dates example and to
an unparsable start date. -/
theorem claim_C5_date_validation_witness :
    ("End date before start date" ∈ (evaluate_rules caseDates).errors
      ∧ score_rule5 caseDates = 0)
  ∧ ("Invalid or missing activity dates" ∈ (evaluate_rules caseBadDate).errors
      ∧ score_rule5 caseBadDate = 0) :=
  ⟨(claim_C5_date_validation caseDates).2 ⟨2024, 12, 31⟩ ⟨2024, 1, 1⟩
      (by decide) (by decide) (by decide),
   (claim_C5_date_validation caseBadDate).1 (Or.inl (by decide))⟩

/-- `contains_prohibited_language` characterised as an existential over
the prohibited word list. -/
theorem contains_prohibited_iff (text : String) :
    contains_prohibited_language text = true ↔
      ∃ w ∈ PROHIBITED_WORDS, lowerChars w <:+: lowerChars text := by
  unfold contains_prohibited_language
  rw [List.any_eq_true]
  constructor
  · rintro ⟨w, hw, h⟩
    exact ⟨w, hw, by simpa [containsSub] using h⟩
  · rintro ⟨w, hw, h⟩
    exact ⟨w, hw, by simpa [containsSub] using h⟩

/-- C9: the error "Prohibited language detected" is recorded exactly
when a narrative is present (non-empty) and contains one of the five
prohibited words as a case-insensitive substring; in every other case —
including an absent or empty narrative — rule 11 contributes one score
point instead. -/
theorem claim_C9_prohibited_language (data : CaseData) :
    ("Prohibited language detected" ∈ (evaluate_rules data).errors ↔
      (narrativeOf data ≠ "" ∧
        ∃ w ∈ PROHIBITED_WORDS, lowerChars w <:+: lowerChars (narrativeOf data)))
  ∧ ("Prohibited language detected" ∉ (evaluate_rules data).errors → score_rule11 data = 1)
  ∧ ("Prohibited language detected" ∈ (evaluate_rules data).errors → score_rule11 data = 0) := by
  have hmem : "Prohibited language detected" ∈ (evaluate_rules data).errors ↔
      (narrativeOf data ≠ "" ∧ contains_prohibited_language (narrativeOf data) = true) := by
    rw [errors_eq]
    simp only [List.mem_append, mem_ite_singleton]
    constructor
    · rintro ((((⟨_, h⟩ | ⟨_, h⟩) | h) | ⟨_, h⟩) | ⟨hc, _⟩)
      · exact absurd h (by decide)
      · exact absurd h (by decide)
      · rcases rule5_errors_sub data h with h' | h' <;> exact absurd h' (by decide)
      · exact absurd h (by decide)
      · exact hc
    · intro h
      exact Or.inr ⟨h, trivial⟩
  refine ⟨hmem.trans (by rw [contains_prohibited_iff]), ?_, ?_⟩
  · intro h
    unfold score_rule11
    rw [if_neg (fun hc => h (hmem.mpr hc))]
  · intro h
    unfold score_rule11
    rw [if_pos (hmem.mp h)]

/-- A case whose narrative uses a prohibited word. -/
def caseProhibited : CaseData :=
  { kyc_full_name := some "John Doe"
    accounts := ["ACC-2"]
    transactions := []
    activity_start := "01/01/2024"
    activity_end := "02/01/2024"
    total_amount := 6000
    subject_identified := true
    narrative := some "The subject is GUILTY of structuring." }

/-- C9 witness: the theorem applied to a prohibited-word narrative (error
recorded, no point) and to an absent narrative (no error, one point). -/
theorem claim_C9_prohibited_language_witness :
    ("Prohibited language detected" ∈ (evaluate_rules caseProhibited).errors
      ∧ score_rule11 caseProhibited = 0)
  ∧ score_rule11 case30 = 1 := by
  have h1 : "Prohibited language detected" ∈ (evaluate_rules caseProhibited).errors :=
    (claim_C9_prohibited_language caseProhibited).1.mpr (by decide)
  have h2 : "Prohibited language detected" ∉ (evaluate_rules case30).errors :=
    fun hm => absurd ((claim_C9_prohibited_language case30).1.mp hm) (by decide)
  exact ⟨⟨h1, (claim_C9_prohibited_language caseProhibited).2.2 h1⟩,
    (claim_C9_prohibited_language case30).2.1 h2⟩

/-- C10: when the narrative is absent or empty, the warnings contain
"Investigation steps not documented" and "Conclusion section missing"
but neither "Narrative missing full 5W1H elements" nor "Narrative below
500 characters". -/
theorem claim_C10_missing_narrative_warnings (data : CaseData)
    (h : data.narrative = none ∨ data.narrative = some "") :
    "Investigation steps not documented" ∈ (evaluate_rules data).warnings
  ∧ "Conclusion section missing" ∈ (evaluate_rules data).warnings
  ∧ "Narrative missing full 5W1H elements" ∉ (evaluate_rules data).warnings
  ∧ "Narrative below 500 characters" ∉ (evaluate_rules data).warnings := by
  have hn : narrativeOf data = "" := by
    rcases h with h | h <;> simp [narrativeOf, h]
  rw [warnings_eq, hn]
  by_cases ht : has_transaction_details data.transactions = true
  · simp [ht]
  · simp [ht]

/-- C10 witness: the theorem applied to a case with no narrative. -/
theorem claim_C10_missing_narrative_warnings_witness :
    "Investigation steps not documented" ∈ (evaluate_rules case30).warnings
  ∧ "Conclusion section missing" ∈ (evaluate_rules case30).warnings
  ∧ "Narrative missing full 5W1H elements" ∉ (evaluate_rules case30).warnings
  ∧ "Narrative below 500 characters" ∉ (evaluate_rules case30).warnings :=
  claim_C10_missing_narrative_warnings case30 (Or.inl rfl)

/-- The three-row, no-country-column table of the Bulk Risk Scorer
boundary example. -/
def table3 : RiskTable :=
  ⟨[⟨some 9500, "", DateCell.stamp none⟩, ⟨some 9500, "", DateCell.stamp none⟩,
    ⟨some 9500, "", DateCell.stamp none⟩], false, false⟩

/-- C4: on a table of exactly three rows of amount 9500 and no country
column, the Bulk Risk Scorer reports `high_value_count = 3` with the
high-value trigger, the structuring trigger, `cross_border_count = 0`
with no cross-border trigger (the trigger list is exactly the two
strings), `total_volume = 28500`, score `10 + 5*3 + 10*0 = 25`, and
level "Medium". -/
theorem claim_C4_bulk_boundary :
    (evaluate_risk_model table3).1.high_value_count = 3
  ∧ "High Value Transactions Detected (Count: 3)" ∈ (evaluate_risk_model table3).1.triggered_rules
  ∧ "Potential Structuring Detected ($9000-$10000 range)"
      ∈ (evaluate_risk_model table3).1.triggered_rules
  ∧ (evaluate_risk_model table3).1.cross_border_count = 0
  ∧ (evaluate_risk_model table3).1.triggered_rules =
      ["High Value Transactions Detected (Count: 3)",
       "Potential Structuring Detected ($9000-$10000 range)"]
  ∧ (evaluate_risk_model table3).1.total_volume = 28500
  ∧ (evaluate_risk_model table3).1.score = 25
  ∧ (evaluate_risk_model table3).1.level = "Medium" := by
  norm_num [evaluate_risk_model, risk_score, base_score, volumeTier, total_volume,
    high_value_count, structuring_count, cross_border_count, rowAmounts, coerceRows,
    coerceRow, convertDates, convertDateRow, coerceAmount, risk_level, risk_triggers, table3]
  decide

/-! ### Risk model lemmas -/

theorem map_eq_self_iff {α : Type} (f : α → α) (l : List α) :
    l.map f = l ↔ ∀ a ∈ l, f a = a := by
  induction l with
  | nil => simp
  | cons x xs ih => simp [ih]

theorem rowAmounts_coerceRows (df : RiskTable) :
    rowAmounts (coerceRows df) = rowAmounts df := by
  simp only [rowAmounts, coerceRows, List.map_map]
  rfl

theorem coerceRows_idem (df : RiskTable) :
    coerceRows (coerceRows df) = coerceRows df := by
  simp only [coerceRows, List.map_map]
  rfl

theorem pdToDatetime_idem (c : DateCell) :
    pdToDatetime (pdToDatetime c) = pdToDatetime c := by
  cases c <;> rfl

/-- The fixed points of the datetime conversion are exactly the cells
already holding a parsed datetime or NaT. -/
theorem pdToDatetime_fixed_iff (c : DateCell) :
    pdToDatetime c = c ↔ ∃ d, c = DateCell.stamp d := by
  cases c with
  | text s =>
    constructor
    · intro h
      exact absurd h (by simp [pdToDatetime])
    · rintro ⟨d, h⟩
      exact absurd h (by simp)
  | stamp d =>
    exact ⟨fun _ => ⟨d, rfl⟩, fun _ => rfl⟩

theorem convertDateRow_idem (r : RiskRow) :
    convertDateRow (convertDateRow r) = convertDateRow r := by
  rcases r with ⟨a, c, d⟩
  simp [convertDateRow, pdToDatetime_idem]

theorem rowAmounts_convertDates (df : RiskTable) :
    rowAmounts (convertDates df) = rowAmounts df := by
  rcases df with ⟨rows, hc, ht⟩
  cases ht
  · rfl
  · show rowAmounts ⟨rows.map convertDateRow, hc, true⟩ = rowAmounts ⟨rows, hc, true⟩
    simp only [rowAmounts, List.map_map]
    rfl

theorem cross_border_count_convertDates (df : RiskTable) :
    cross_border_count (convertDates df) = cross_border_count df := by
  rcases df with ⟨rows, hc, ht⟩
  cases ht
  · rfl
  · show cross_border_count ⟨rows.map convertDateRow, hc, true⟩
        = cross_border_count ⟨rows, hc, true⟩
    simp only [cross_border_count, List.filter_map, List.length_map]
    rfl

theorem convertDates_idem (df : RiskTable) :
    convertDates (convertDates df) = convertDates df := by
  rcases df with ⟨rows, hc, ht⟩
  cases ht
  · rfl
  · show (⟨(rows.map convertDateRow).map convertDateRow, hc, true⟩ : RiskTable)
        = ⟨rows.map convertDateRow, hc, true⟩
    refine congrArg (fun l => RiskTable.mk l hc true) ?_
    rw [List.map_map]
    exact List.map_congr_left fun r _ => convertDateRow_idem r

theorem coerceRows_convertDates_comm (df : RiskTable) :
    coerceRows (convertDates df) = convertDates (coerceRows df) := by
  rcases df with ⟨rows, hc, ht⟩
  cases ht
  · rfl
  · show (⟨(rows.map convertDateRow).map coerceRow, hc, true⟩ : RiskTable)
        = ⟨(rows.map coerceRow).map convertDateRow, hc, true⟩
    refine congrArg (fun l => RiskTable.mk l hc true) ?_
    rw [List.map_map, List.map_map]
    exact List.map_congr_left fun r _ => rfl

theorem mutate_idem (df : RiskTable) :
    convertDates (coerceRows (convertDates (coerceRows df))) = convertDates (coerceRows df) := by
  rw [coerceRows_convertDates_comm, coerceRows_idem, convertDates_idem]

theorem cross_border_count_coerce (df : RiskTable) :
    cross_border_count (coerceRows df) = cross_border_count df := by
  simp only [cross_border_count, coerceRows, List.filter_map, List.length_map]
  rfl

theorem total_volume_mutate (df : RiskTable) :
    total_volume (convertDates (coerceRows df)) = total_volume df := by
  rw [total_volume, total_volume, rowAmounts_convertDates, rowAmounts_coerceRows]

theorem high_value_count_mutate (df : RiskTable) :
    high_value_count (convertDates (coerceRows df)) = high_value_count df := by
  rw [high_value_count, high_value_count, rowAmounts_convertDates, rowAmounts_coerceRows]

theorem cross_border_count_mutate (df : RiskTable) :
    cross_border_count (convertDates (coerceRows df)) = cross_border_count df := by
  rw [cross_border_count_convertDates, cross_border_count_coerce]

theorem base_score_mutate (df : RiskTable) :
    base_score (convertDates (coerceRows df)) = base_score df := by
  rw [base_score, base_score, total_volume_mutate, high_value_count_mutate,
    cross_border_count_mutate]

theorem risk_score_mutate (df : RiskTable) :
    risk_score (convertDates (coerceRows df)) = risk_score df := by
  rw [risk_score, risk_score, base_score_mutate]

theorem volumeTier_mono {v w : ℚ} (h : v ≤ w) : volumeTier v ≤ volumeTier w := by
  unfold volumeTier
  split_ifs <;> first | omega | (exfalso; linarith)

/-! ### Claims C6, C7, C8 -/

/-- The single-row table used in the monotonicity counterexample:
volume 100001 puts it in the top volume tier. -/
def tableA : RiskTable := ⟨[⟨some 100001, "", DateCell.stamp none⟩], false, false⟩

/-- A row with a negative amount. -/
def rowNeg : RiskRow := ⟨some (-50000), "", DateCell.stamp none⟩

/-- C6 counterexample: appending a row of amount -50000 to `tableA`
drops the volume below the 100000 tier, so the risk score strictly
decreases (from 35 to 15), refuting monotonicity for arbitrary appended
rows. -/
theorem claim_C6_counterexample :
    (evaluate_risk_model
        (RiskTable.mk (tableA.rows ++ [rowNeg]) tableA.hasCountry tableA.hasTransactionDate)).1.score
      < (evaluate_risk_model tableA).1.score := by
  norm_num [evaluate_risk_model, risk_score, base_score, volumeTier, total_volume,
    high_value_count, structuring_count, cross_border_count, rowAmounts, coerceRows,
    coerceRow, convertDates, convertDateRow, coerceAmount, tableA, rowNeg]

/-- C6 (amended): appending a row whose coerced amount is nonnegative
never lowers the risk score. -/
theorem claim_C6_monotone_append (df : RiskTable) (r : RiskRow)
    (h : 0 ≤ coerceAmount r.rawAmount) :
    (evaluate_risk_model df).1.score
      ≤ (evaluate_risk_model
          (RiskTable.mk (df.rows ++ [r]) df.hasCountry df.hasTransactionDate)).1.score := by
  show risk_score (convertDates (coerceRows df))
      ≤ risk_score (convertDates (coerceRows
          (RiskTable.mk (df.rows ++ [r]) df.hasCountry df.hasTransactionDate)))
  rw [risk_score_mutate, risk_score_mutate]
  have hamounts :
      rowAmounts (RiskTable.mk (df.rows ++ [r]) df.hasCountry df.hasTransactionDate)
      = rowAmounts df ++ [coerceAmount r.rawAmount] := by
    simp [rowAmounts]
  have htv : total_volume df
      ≤ total_volume (RiskTable.mk (df.rows ++ [r]) df.hasCountry df.hasTransactionDate) := by
    rw [total_volume, total_volume, hamounts, List.sum_append]
    simp only [List.sum_cons, List.sum_nil]
    linarith
  have hhv : high_value_count df
      ≤ high_value_count (RiskTable.mk (df.rows ++ [r]) df.hasCountry df.hasTransactionDate) := by
    rw [high_value_count, high_value_count, hamounts, List.filter_append,
      List.length_append]
    exact Nat.le_add_right _ _
  have hcb : cross_border_count df
      ≤ cross_border_count
          (RiskTable.mk (df.rows ++ [r]) df.hasCountry df.hasTransactionDate) := by
    by_cases hc : df.hasCountry = true
    · simp only [cross_border_count, hc, if_true, List.filter_append, List.length_append]
      exact Nat.le_add_right _ _
    · have hc' : df.hasCountry = false := by
        revert hc
        cases df.hasCountry <;> simp
      simp [cross_border_count, hc']
  rw [risk_score, risk_score]
  refine min_le_min ?_ (le_refl 100)
  rw [base_score, base_score]
  exact Nat.add_le_add (Nat.add_le_add (volumeTier_mono htv) (Nat.mul_le_mul_right 5 hhv))
    (Nat.mul_le_mul_right 10 hcb)

/-- C6 witness: the amended theorem applied to `tableA` and a row of
amount 50. -/
theorem claim_C6_monotone_append_witness :
    0 ≤ coerceAmount (RiskRow.mk (some 50) "" (DateCell.stamp none)).rawAmount
  ∧ (evaluate_risk_model tableA).1.score
      ≤ (evaluate_risk_model
          (RiskTable.mk (tableA.rows ++ [RiskRow.mk (some 50) "" (DateCell.stamp none)])
            tableA.hasCountry tableA.hasTransactionDate)).1.score :=
  ⟨by decide, claim_C6_monotone_append tableA ⟨some 50, "", DateCell.stamp none⟩ (by decide)⟩

/-- The mutated table of a call on a table with a transaction_date
column, spelled out: the amount column coerced and the date column
parsed, in one pass. -/
theorem risk_model_snd_true (rows : List RiskRow) (hc : Bool) :
    (evaluate_risk_model ⟨rows, hc, true⟩).2
      = ⟨rows.map (fun r =>
          ⟨some (coerceAmount r.rawAmount), r.country, pdToDatetime r.rawDate⟩), hc, true⟩ :=
  congrArg (fun l => RiskTable.mk l hc true) (List.map_map _ _ _)

/-- The mutated table of a call on a table without a transaction_date
column: only the amount column is rewritten. -/
theorem risk_model_snd_false (rows : List RiskRow) (hc : Bool) :
    (evaluate_risk_model ⟨rows, hc, false⟩).2
      = ⟨rows.map (fun r =>
          ⟨some (coerceAmount r.rawAmount), r.country, r.rawDate⟩), hc, false⟩ :=
  rfl

/-- A table whose only amount cell is not coercible to a number. -/
def tableRaw : RiskTable := ⟨[⟨none, "", DateCell.stamp none⟩], false, false⟩

/-- A table with a clean amount but a raw text transaction_date cell, as
the CSV import path delivers it. -/
def tableDates : RiskTable := ⟨[⟨some 100, "", DateCell.text "2024-01-01"⟩], false, true⟩

/-- C7 counterexample: `evaluate_risk_model` does not leave its input
table unchanged — an uncoercible amount cell has been overwritten with 0
after the call, and a text transaction_date cell has been overwritten
with its parsed datetime even when every amount cell was already
numeric. -/
theorem claim_C7_counterexample :
    (evaluate_risk_model tableRaw).2 ≠ tableRaw
  ∧ (evaluate_risk_model tableDates).2 ≠ tableDates := by
  constructor <;> decide

/-- C7 (amended): the call mutates exactly the amount column and, when a
transaction_date column exists, the transaction_date column. The
returned (mutated) table keeps the column layout, row count and every
country cell; its amount column holds the coerced values and its
transaction_date column the parsed values (the parse fixes exactly the
cells already holding a datetime or NaT); the table is unchanged
precisely when every amount cell was already a coerced numeric value
and, if the transaction_date column exists, every transaction_date cell
was already a parsed datetime. -/
theorem claim_C7_mutation (df : RiskTable) :
    ((evaluate_risk_model df).2.hasCountry = df.hasCountry)
  ∧ ((evaluate_risk_model df).2.hasTransactionDate = df.hasTransactionDate)
  ∧ ((evaluate_risk_model df).2.rows.map RiskRow.country = df.rows.map RiskRow.country)
  ∧ ((evaluate_risk_model df).2.rows.map RiskRow.rawAmount
      = df.rows.map (fun r => some (coerceAmount r.rawAmount)))
  ∧ ((evaluate_risk_model df).2.rows.map RiskRow.rawDate
      = df.rows.map (fun r =>
          if df.hasTransactionDate then pdToDatetime r.rawDate else r.rawDate))
  ∧ (∀ c : DateCell, pdToDatetime c = c ↔ ∃ d, c = DateCell.stamp d)
  ∧ ((evaluate_risk_model df).2 = df ↔
      ((∀ r ∈ df.rows, r.rawAmount = some (coerceAmount r.rawAmount))
        ∧ (df.hasTransactionDate = true →
            ∀ r ∈ df.rows, pdToDatetime r.rawDate = r.rawDate))) := by
  rcases df with ⟨rows, hc, ht⟩
  cases ht
  · rw [risk_model_snd_false]
    refine ⟨rfl, rfl, ?_, ?_, ?_, pdToDatetime_fixed_iff, ?_⟩
    · simp only [List.map_map]
      rfl
    · simp only [List.map_map]
      rfl
    · simp only [List.map_map]
      simp
    · constructor
      · intro he
        have hrows : rows.map (fun r =>
            (⟨some (coerceAmount r.rawAmount), r.country, r.rawDate⟩ : RiskRow)) = rows :=
          congrArg RiskTable.rows he
        rw [map_eq_self_iff] at hrows
        refine ⟨fun r hr => ?_, fun hff => absurd hff (by simp)⟩
        exact (congrArg RiskRow.rawAmount (hrows r hr)).symm
      · rintro ⟨hamt, _⟩
        refine congrArg (fun l => RiskTable.mk l hc false) ?_
        rw [map_eq_self_iff]
        intro r hr
        have h1 : r.rawAmount = some (coerceAmount r.rawAmount) := hamt r hr
        rcases r with ⟨a, c, d⟩
        have h1' : a = some (coerceAmount a) := h1
        show (⟨some (coerceAmount a), c, d⟩ : RiskRow) = ⟨a, c, d⟩
        rw [← h1']
  · rw [risk_model_snd_true]
    refine ⟨rfl, rfl, ?_, ?_, ?_, pdToDatetime_fixed_iff, ?_⟩
    · simp only [List.map_map]
      rfl
    · simp only [List.map_map]
      rfl
    · simp only [List.map_map]
      simp
    · constructor
      · intro he
        have hrows : rows.map (fun r =>
            (⟨some (coerceAmount r.rawAmount), r.country, pdToDatetime r.rawDate⟩ : RiskRow))
            = rows := congrArg RiskTable.rows he
        rw [map_eq_self_iff] at hrows
        refine ⟨fun r hr => ?_, fun _ r hr => ?_⟩
        · exact (congrArg RiskRow.rawAmount (hrows r hr)).symm
        · exact congrArg RiskRow.rawDate (hrows r hr)
      · rintro ⟨hamt, hdt⟩
        refine congrArg (fun l => RiskTable.mk l hc true) ?_
        rw [map_eq_self_iff]
        intro r hr
        have h1 : r.rawAmount = some (coerceAmount r.rawAmount) := hamt r hr
        have h2 : pdToDatetime r.rawDate = r.rawDate := hdt rfl r hr
        rcases r with ⟨a, c, d⟩
        have h1' : a = some (coerceAmount a) := h1
        have h2' : pdToDatetime d = d := h2
        show (⟨some (coerceAmount a), c, pdToDatetime d⟩ : RiskRow) = ⟨a, c, d⟩
        rw [← h1', h2']

/-- A table whose amount cells are already numeric and whose
transaction_date cells are already parsed. -/
def tableClean : RiskTable := ⟨[⟨some 5, "US", DateCell.stamp (some ⟨2024, 1, 2⟩)⟩], true, true⟩

/-- C7 witness: the amended theorem applied to `tableClean`, whose
amount cells are already coerced and date cells already parsed, so the
call leaves it unchanged. -/
theorem claim_C7_mutation_witness :
    (evaluate_risk_model tableClean).2 = tableClean :=
  (claim_C7_mutation tableClean).2.2.2.2.2.2.mpr (by decide)

/-- C8: the Bulk Risk Scorer is deterministic and idempotent — invoking
it again on the table as left by a first invocation yields the same
result (score, level, metrics, triggered rules) and the same table. -/
theorem claim_C8_idempotent (df : RiskTable) :
    (evaluate_risk_model ((evaluate_risk_model df).2)).1 = (evaluate_risk_model df).1
  ∧ (evaluate_risk_model ((evaluate_risk_model df).2)).2 = (evaluate_risk_model df).2 := by
  constructor <;>
    · simp only [evaluate_risk_model]
      rw [mutate_idem]

end SAR
